import Mathlib

/-!
Verification of the search-path resolution and incremental-load algorithm of
the config_resolver repository, as implemented by the class-based resolver in
src/config_resolver/core.py (module version 4.3.3: Config, SecuredConfig,
get_config).

Shallow-embedding conventions:
  * The POSIX platform is assumed: the OS path separator is a colon, the
    stat permission bits S_IRGRP and S_IROTH are the octal constants 0o40
    and 0o4, and os.path.join inserts a slash.
  * The process environment, the home directory (for os.path.expanduser)
    and the current working directory (os.getcwd) are bundled in an `Env`
    value that is passed explicitly.
  * The filesystem is a finite map from absolute file names to an `FSFile`,
    which records the file's permission bits and the outcome of parsing it
    with configparser: either the parsed document (a section/option/value
    list) or a parse failure (configparser raises, e.g.
    MissingSectionHeaderError, from ConfigParser.read / ConfigParser.read
    does not catch parse errors, only OSError).
  * Python exceptions become the `LoadExc` sum type; a computation that can
    raise returns `LoadOutcome`.
  * Log calls are modelled as emitted `(level, message)` events where the
    surrounding claims refer to them (the gate and the load loop); purely
    informational debug logs in the path helpers are not tracked.
-/

/-- Character-list splitter underlying the model of Python str.split with a
one-character separator: splitting the empty text yields one empty piece,
and every separator occurrence starts a new piece. -/
def splitOnChar (c : Char) : List Char → List (List Char)
  | [] => [[]]
  | x :: xs =>
    let r := splitOnChar c xs
    if x == c then [] :: r
    else
      match r with
      | [] => [[x]]
      | h :: t => (x :: h) :: t

/-- Model of Python str.split(sep) for the one-character separators used by
the source (the os.pathsep colon and the version dot). -/
def strSplit (s sep : String) : List String :=
  match sep.data with
  | [c] => (splitOnChar c s.data).map String.mk
  | _ => [s]

/-- Model of Python str.startswith. -/
def strStarts (s pre : String) : Bool :=
  List.isPrefixOf pre.data s.data

/-- Model of Python str.endswith. -/
def strEnds (s suf : String) : Bool :=
  List.isSuffixOf suf.data s.data

/-- Model of the Python slice s[1:], used for the plus-prefixed path
override. -/
def strDropOne (s : String) : String :=
  String.mk (s.data.drop 1)

/-- Model of Python str.upper for the ASCII identifiers used in env-var
names. -/
def strUpper (s : String) : String :=
  String.mk (s.data.map Char.toUpper)

/-- Value of a decimal digit character, if it is one. -/
def digitVal (c : Char) : Option Nat :=
  let n := c.toNat
  if 48 ≤ n && n ≤ 57 then some (n - 48) else none

/-- Accumulating parser for a run of decimal digits. -/
def decDigitsAux : List Char → Nat → Option Nat
  | [], acc => some acc
  | c :: cs, acc =>
    match digitVal c with
    | some d => decDigitsAux cs (acc * 10 + d)
    | none => none

/-- Model of parsing a non-empty all-digits string as a natural number, as
the StrictVersion regexp fragment for one version component does. -/
def strToNatQ (s : String) : Option Nat :=
  match s.data with
  | [] => none
  | cs => decDigitsAux cs 0

/-- String constant: the POSIX os.pathsep, used by the source to split
search-path strings. -/
def pathsep : String := ":"

/-- String constant: a single slash, the POSIX directory separator. -/
def slashStr : String := "/"

/-- String constant: the tilde recognised by os.path.expanduser. -/
def tildeStr : String := "~"

/-- String constant: the plus sign marking an additive path override. -/
def plusSign : String := "+"

/-- String constant: the empty string (Python falsy value for strings). -/
def emptyStr : String := ""

/-- String constant: a single dot, used for the cwd entry of the path. -/
def dotStr : String := "."

/-- String constant: the section name holding the version number. -/
def metaStr : String := "meta"

/-- String constant: the option name holding the version number. -/
def versionStr : String := "version"

/-- String constant: the prefix of the system-wide config directory. -/
def etcPre : String := "/etc/"

/-- String constant: the XDG fallback directory prefix. -/
def etcXdgPre : String := "/etc/xdg/"

/-- String constant: an underscore, used when building env-var names. -/
def underscoreStr : String := "_"

/-- String constant: the trailing part of the path env-var name. -/
def pathVarEnd : String := "_PATH"

/-- String constant: the trailing part of the filename env-var name. -/
def filenameVarEnd : String := "_FILENAME"

/-- String constant: the XDG_CONFIG_DIRS environment variable name. -/
def xdgConfigDirs : String := "XDG_CONFIG_DIRS"

/-- String constant: the XDG_CONFIG_HOME environment variable name. -/
def xdgConfigHome : String := "XDG_CONFIG_HOME"

/-- String constant: the default XDG home config location pattern head. -/
def homeDotConfig : String := "~/.config/"

/-- String constant: the legacy home config location pattern head. -/
def tildeDot : String := "~/."

/-- String constant: the default filename used by get_config when neither
the direct argument nor the lookup options carry one. -/
def defaultConfigIni : String := "config.ini"

/-- The stat.S_IRGRP permission bit (octal 40). -/
def sIRGRP : Nat := 32

/-- The stat.S_IROTH permission bit (octal 4). -/
def sIROTH : Nat := 4

/-- Ambient process state read by the resolver: the environment variables,
the home directory used by os.path.expanduser, and os.getcwd(). -/
structure Env where
  vars : List (String × String)
  home : String
  cwd : String
deriving DecidableEq

/-- os.getenv without a default: the first binding of the name, if any. -/
def envGet (env : Env) (name : String) : Option String :=
  List.lookup name env.vars

/-- Python truthiness of an optional string: None and the empty string are
falsy, everything else is truthy. -/
def strTruthy : Option String → Bool
  | none => false
  | some s => s != emptyStr

/-- os.path.expanduser restricted to the leading-tilde form used by the
source: a path starting with a tilde has the tilde replaced by the home
directory. -/
def expanduser (env : Env) (p : String) : String :=
  if strStarts p tildeStr then env.home ++ strDropOne p else p

/-- os.path.join for two components on POSIX: an absolute second component
replaces the first, otherwise the components are joined with a slash. -/
def osJoin (a b : String) : String :=
  if strStarts b slashStr then b
  else if a == emptyStr then b
  else if strEnds a slashStr then a ++ b
  else a ++ slashStr ++ b

/-- A distutils StrictVersion value as used by the source: the source only
destructures the (major, minor, patch) tuple and compares major and minor. -/
structure StrictVer where
  major : Nat
  minor : Nat
  patch : Nat
deriving DecidableEq

/-- Parsing of a StrictVersion string of the dotted-numbers form
"major.minor" or "major.minor.patch" (the pre-release suffix accepted by
distutils is never exercised by the resolver's inputs and is not modelled;
any other shape is a parse failure, which StrictVersion reports by raising
ValueError). -/
def parseStrictVersion (s : String) : Option StrictVer :=
  match (strSplit s dotStr).map strToNatQ with
  | [some a, some b] => some (StrictVer.mk a b 0)
  | [some a, some b, some c] => some (StrictVer.mk a b c)
  | _ => none

/-- A parsed configuration document: a list of ((section, option), value)
entries, earlier entries taking precedence on lookup (so a merge prepends
the overriding file's entries). -/
abbrev Doc := List ((String × String) × String)

/-- ConfigParser.get combined with has_option: the value of the first entry
matching the section and option, if any. -/
def Doc.get (d : Doc) (sec opt : String) : Option String :=
  (List.find? (fun e => e.1.1 == sec && e.1.2 == opt) d).map (fun e => e.2)

/-- ConfigParser.read into an existing parser: the new file's entries
override entries with the same (section, option), everything else is kept
and nothing is removed. -/
def Doc.update (old new : Doc) : Doc := new ++ old

/-- The outcome of handing a file's bytes to configparser: the parsed
document, or a parse failure (configparser raises). -/
inductive ParseOutcome where
  | parsed (doc : Doc)
  | failed
deriving DecidableEq

/-- One file on disk: its configparser outcome and its stat st_mode
permission bits. -/
structure FSFile where
  outcome : ParseOutcome
  mode : Nat
deriving DecidableEq

/-- The filesystem: a finite map from file names to files. -/
abbrev FileSystem := List (String × FSFile)

/-- Lookup of a file name in the filesystem. -/
def fsLookup (fs : FileSystem) (name : String) : Option FSFile :=
  List.lookup name fs

/-- Python exceptions that can escape the resolver. -/
inductive LoadExc where
  /-- A configparser parse error propagating out of ConfigParser.read. -/
  | parsingError (filename : String)
  /-- NoVersionError: a version is expected but the file carries none. -/
  | noVersionError (filename : String) (expected : StrictVer)
  /-- ValueError from StrictVersion on a malformed version string. -/
  | valueError (raw : String)
  /-- The error raised when no file was loaded and require_load is set; the
  source raises IOError with the attempted filename and the search path in
  the message (the spec calls this condition ConfigNotFound). -/
  | configNotFound (filename : String) (searchPath : List String)
  /-- OSError from os.stat on a missing file (unreachable in practice). -/
  | statError (filename : String)
deriving DecidableEq

/-- Result of a Python computation that can raise. -/
inductive LoadOutcome (α : Type) where
  | ok (value : α)
  | raised (exc : LoadExc)
deriving DecidableEq

/-- Severity levels of the logging calls modelled here. -/
inductive LogLevel where
  | debug
  | info
  | warning
  | error
deriving DecidableEq

/-- The log messages emitted by the gate and the load loop. -/
inductive LogMsg where
  /-- Lock-in message: the file contains a version number although none was
  requested, so the version is locked in to prevent accidents. -/
  | lockIn (filename : String) (v : StrictVer)
  /-- Invalid major version number in the file. -/
  | invalidMajor (filename : String) (expected : StrictVer) (got : String)
  /-- Mismatching minor version number in the file. -/
  | mismatchingMinor (filename : String) (expected : StrictVer) (got : String)
  /-- The file is not secure enough (group/other readable in secure mode). -/
  | notSecure (filename : String)
  /-- Loading-initial/updating config from a file. -/
  | loadingConfig (filename : String)
  /-- Deprecation warning for the legacy home config location. -/
  | xdgDeprecation (filename : String)
  /-- No config file found on the whole search path. -/
  | noConfigFound (filename : String) (searchPath : List String)
deriving DecidableEq

/-- One log event: a severity and a message. -/
abbrev LogEvent := LogLevel × LogMsg

/-- Embedding of Config.get_xdg_dirs (core.py lines 201-217): the
XDG_CONFIG_DIRS entries, reversed and joined with group and app, or the
/etc/xdg default when the variable is unset or empty. -/
def get_xdg_dirs (env : Env) (group_name app_name : String) : List String :=
  let config_dirs := (envGet env xdgConfigDirs).getD emptyStr
  if config_dirs != emptyStr then
    ((strSplit config_dirs pathsep).reverse).map
      (fun path => osJoin (osJoin path group_name) app_name)
  else
    [etcXdgPre ++ group_name ++ slashStr ++ app_name]

/-- Embedding of Config.get_xdg_home (core.py lines 219-229): the
XDG_CONFIG_HOME location joined with group and app, or the ~/.config
default when the variable is unset or empty. -/
def get_xdg_home (env : Env) (group_name app_name : String) : String :=
  let config_home := (envGet env xdgConfigHome).getD emptyStr
  if config_home != emptyStr then
    expanduser env (osJoin (osJoin config_home group_name) app_name)
  else
    expanduser env (homeDotConfig ++ group_name ++ slashStr ++ app_name)

/-- The name of the search-path override environment variable,
GROUP_APP_PATH with both parts upper-cased (core.py lines 176-178). -/
def env_path_name (group_name app_name : String) : String :=
  strUpper group_name ++ underscoreStr ++ strUpper app_name ++ pathVarEnd

/-- The name of the filename override environment variable,
GROUP_APP_FILENAME with both parts upper-cased (core.py lines 179-181). -/
def env_filename_name (group_name app_name : String) : String :=
  strUpper group_name ++ underscoreStr ++ strUpper app_name ++ filenameVarEnd

/-- Embedding of Config._effective_path (core.py lines 254-291): the default
path (system-wide, XDG dirs, legacy home, XDG home, cwd), replaced by the
explicit search path when one is given, then extended or replaced by the
GROUP_APP_PATH environment variable. -/
def effective_path (env : Env) (group_name app_name : String)
    (search_path : Option String) : List String :=
  let path :=
    [etcPre ++ group_name ++ slashStr ++ app_name] ++
    get_xdg_dirs env group_name app_name ++
    [expanduser env (tildeDot ++ group_name ++ slashStr ++ app_name),
     get_xdg_home env group_name app_name,
     osJoin (osJoin env.cwd (dotStr ++ group_name)) app_name]
  let path :=
    match search_path with
    | none => path
    | some sp => if sp == emptyStr then path else strSplit sp pathsep
  match envGet env (env_path_name group_name app_name) with
  | none => path
  | some s =>
      if s == emptyStr then path
      else if strStarts s plusSign then
        path ++ strSplit (strDropOne s) pathsep
      else
        strSplit s pathsep

/-- Embedding of Config._effective_filename (core.py lines 231-252): the
instance filename, overridden by the GROUP_APP_FILENAME environment
variable when that is set and non-empty. -/
def effective_filename (env : Env) (group_name app_name filename : String) :
    String :=
  let config_filename := if filename != emptyStr then filename else emptyStr
  match envGet env (env_filename_name group_name app_name) with
  | none => config_filename
  | some s => if s == emptyStr then config_filename else s

/-- The result of one gate call: whether the file is readable, the possibly
updated instance version (check_file assigns self.version on lock-in), and
the log events emitted. -/
structure CheckResult where
  readable : Bool
  version : Option StrictVer
  logs : List LogEvent
deriving DecidableEq

/-- Embedding of Config.check_file (core.py lines 293-343). A missing file
is not readable; an existing file is parsed with a fresh ConfigParser
(ConfigParser.read propagates parse errors); a set instance version plus a
versionless file raises NoVersionError; an unset instance version plus a
versioned file locks the version in and accepts; with both set, a major
mismatch rejects with an error log and a minor mismatch accepts with a
warning log. -/
def check_file (fs : FileSystem) (ver : Option StrictVer) (filename : String) :
    LoadOutcome CheckResult :=
  match fsLookup fs filename with
  | none => LoadOutcome.ok (CheckResult.mk false ver [])
  | some f =>
    match f.outcome with
    | ParseOutcome.failed => LoadOutcome.raised (LoadExc.parsingError filename)
    | ParseOutcome.parsed doc =>
      match ver, Doc.get doc metaStr versionStr with
      | some v, none =>
          LoadOutcome.raised (LoadExc.noVersionError filename v)
      | none, some raw =>
          match parseStrictVersion raw with
          | none => LoadOutcome.raised (LoadExc.valueError raw)
          | some fv =>
              LoadOutcome.ok (CheckResult.mk true (some fv)
                [(LogLevel.info, LogMsg.lockIn filename fv)])
      | some v, some raw =>
          match parseStrictVersion raw with
          | none => LoadOutcome.raised (LoadExc.valueError raw)
          | some fv =>
              if v.major != fv.major then
                LoadOutcome.ok (CheckResult.mk false (some v)
                  [(LogLevel.error, LogMsg.invalidMajor filename v raw)])
              else if v.minor != fv.minor then
                LoadOutcome.ok (CheckResult.mk true (some v)
                  [(LogLevel.warning, LogMsg.mismatchingMinor filename v raw)])
              else
                LoadOutcome.ok (CheckResult.mk true (some v) [])
      | none, none => LoadOutcome.ok (CheckResult.mk true none [])

/-- The permission test of SecuredConfig.check_file: the group-read or the
other-read bit of st_mode is set. -/
def insecure_mode (mode : Nat) : Bool :=
  (mode &&& sIRGRP != 0) || (mode &&& sIROTH != 0)

/-- Embedding of SecuredConfig.check_file (core.py lines 464-478): the base
gate runs first (so a version lock-in still happens), then a readable file
whose mode has the group-read or other-read bit set is rejected with a
warning. -/
def secured_check_file (fs : FileSystem) (ver : Option StrictVer)
    (filename : String) : LoadOutcome CheckResult :=
  match check_file fs ver filename with
  | LoadOutcome.raised e => LoadOutcome.raised e
  | LoadOutcome.ok r =>
    if r.readable then
      match fsLookup fs filename with
      | none => LoadOutcome.raised (LoadExc.statError filename)
      | some f =>
        if insecure_mode f.mode then
          LoadOutcome.ok (CheckResult.mk false r.version
            (r.logs ++ [(LogLevel.warning, LogMsg.notSecure filename)]))
        else
          LoadOutcome.ok (CheckResult.mk true r.version r.logs)
    else
      LoadOutcome.ok r

/-- The gate actually invoked by the load loop: SecuredConfig overrides
check_file, Config uses the base version (dynamic dispatch on the class
chosen by get_config's secure option). -/
def dispatch_check_file (secure : Bool) (fs : FileSystem)
    (ver : Option StrictVer) (filename : String) : LoadOutcome CheckResult :=
  if secure then secured_check_file fs ver filename
  else check_file fs ver filename

/-- The mutable state of a Config instance during load: the accumulated
document, the loaded-files list, the active path, the (possibly locked-in)
version and the emitted log events. -/
structure LoadState where
  doc : Doc
  loadedFiles : List String
  activePath : List String
  version : Option StrictVer
  logs : List LogEvent
deriving DecidableEq

/-- The body of the for-loop of Config.load (core.py lines 427-446), one
directory at a time: the gate is asked about the candidate, a readable
candidate is re-read into the accumulated document (ConfigParser.read again;
it silently skips a vanished file), the legacy home location triggers a
deprecation warning, and the candidate is appended to loaded_files. -/
def load_loop (secure : Bool) (fs : FileSystem) (env : Env)
    (group_name app_name filename config_filename : String) :
    List String → LoadState → LoadOutcome LoadState
  | [], st => LoadOutcome.ok st
  | dirname :: rest, st =>
    let conf_name := osJoin dirname config_filename
    match dispatch_check_file secure fs st.version conf_name with
    | LoadOutcome.raised e => LoadOutcome.raised e
    | LoadOutcome.ok r =>
      let st1 : LoadState :=
        LoadState.mk st.doc st.loadedFiles st.activePath r.version
          (st.logs ++ r.logs)
      if r.readable then
        let st2 : LoadState :=
          LoadState.mk st1.doc st1.loadedFiles st1.activePath st1.version
            (st1.logs ++ [(LogLevel.info, LogMsg.loadingConfig conf_name)])
        match fsLookup fs conf_name with
        | none =>
            load_loop secure fs env group_name app_name filename
              config_filename rest
              (LoadState.mk st2.doc (st2.loadedFiles ++ [conf_name])
                st2.activePath st2.version st2.logs)
        | some f =>
          match f.outcome with
          | ParseOutcome.failed =>
              LoadOutcome.raised (LoadExc.parsingError conf_name)
          | ParseOutcome.parsed d =>
            let st3 : LoadState :=
              LoadState.mk (Doc.update st2.doc d) st2.loadedFiles
                st2.activePath st2.version st2.logs
            let st4 : LoadState :=
              if conf_name == expanduser env (tildeDot ++ group_name ++
                  slashStr ++ app_name ++ slashStr ++ filename) then
                LoadState.mk st3.doc st3.loadedFiles st3.activePath
                  st3.version
                  (st3.logs ++ [(LogLevel.warning,
                    LogMsg.xdgDeprecation conf_name)])
              else st3
            load_loop secure fs env group_name app_name filename
              config_filename rest
              (LoadState.mk st4.doc (st4.loadedFiles ++ [conf_name])
                st4.activePath st4.version st4.logs)
      else
        load_loop secure fs env group_name app_name filename
          config_filename rest st1

/-- The initial load state of Config.load: an empty parser, no loaded
files, the active path precomputed from the effective path and filename,
the instance version from the constructor, and no logs. -/
def initial_state (env : Env) (group_name app_name : String)
    (search_path : Option String) (filename : String)
    (version0 : Option StrictVer) : LoadState :=
  let path := effective_path env group_name app_name search_path
  let config_filename := effective_filename env group_name app_name filename
  LoadState.mk [] []
    (path.map (fun d => osJoin d config_filename)) version0 []

/-- Embedding of Config.load (core.py lines 395-455) together with the
constructor wiring of Config.__init__: the effective path and filename are
computed, the loop runs over every candidate directory, and afterwards an
empty loaded-files list either logs a warning (require_load false) or
raises the not-found error carrying the attempted filename and the whole
search path (require_load true). -/
def config_load (secure : Bool) (env : Env) (fs : FileSystem)
    (group_name app_name : String) (search_path : Option String)
    (filename : String) (require_load : Bool)
    (version0 : Option StrictVer) : LoadOutcome LoadState :=
  let path := effective_path env group_name app_name search_path
  let config_filename := effective_filename env group_name app_name filename
  match load_loop secure fs env group_name app_name filename config_filename
      path (initial_state env group_name app_name search_path filename
        version0) with
  | LoadOutcome.raised e => LoadOutcome.raised e
  | LoadOutcome.ok st =>
    if st.loadedFiles == ([] : List String) then
      if require_load then
        LoadOutcome.raised (LoadExc.configNotFound config_filename path)
      else
        LoadOutcome.ok
          (LoadState.mk st.doc st.loadedFiles st.activePath st.version
            (st.logs ++ [(LogLevel.warning,
              LogMsg.noConfigFound config_filename path)]))
    else
      LoadOutcome.ok st

/-- The recognised lookup options of get_config (core.py lines 486-495). -/
structure LookupOptions where
  search_path : Option String
  filename : Option String
  version : Option String
  require_load : Bool
  secure : Bool
deriving DecidableEq

/-- The group/app identity record returned in the lookup metadata. -/
structure ConfigID where
  group : String
  app : String
deriving DecidableEq

/-- The observable part of get_config's LookupResult: the final document,
the metadata (active path, loaded files, identity), the locked-in version
and the emitted logs. -/
structure LookupResult where
  config : Doc
  active_path : List String
  loaded_files : List String
  config_id : ConfigID
  locked_version : Option StrictVer
  logs : List LogEvent
deriving DecidableEq

/-- Embedding of get_config (core.py lines 481-514): the secure option
picks the class (and thereby the gate), the filename falls back from the
direct argument to the lookup options to "config.ini" (Python or-chains on
truthiness), the version string is parsed by StrictVersion in the
constructor, and the instance is loaded. -/
def get_config (env : Env) (fs : FileSystem) (app_name group_name : String)
    (filename : String) (opts : LookupOptions) : LoadOutcome LookupResult :=
  let secure := opts.secure
  let fname :=
    if filename != emptyStr then filename
    else match opts.filename with
      | some f => if f != emptyStr then f else defaultConfigIni
      | none => defaultConfigIni
  let ver0 : LoadOutcome (Option StrictVer) :=
    match opts.version with
    | none => LoadOutcome.ok none
    | some s =>
      if s == emptyStr then LoadOutcome.ok none
      else match parseStrictVersion s with
        | some v => LoadOutcome.ok (some v)
        | none => LoadOutcome.raised (LoadExc.valueError s)
  match ver0 with
  | LoadOutcome.raised e => LoadOutcome.raised e
  | LoadOutcome.ok v0 =>
    match config_load secure env fs group_name app_name opts.search_path
        fname opts.require_load v0 with
    | LoadOutcome.raised e => LoadOutcome.raised e
    | LoadOutcome.ok st =>
        LoadOutcome.ok
          (LookupResult.mk st.doc st.activePath st.loadedFiles
            (ConfigID.mk group_name app_name) st.version st.logs)

/-! ## Fixtures used by the claim theorems -/

/-- Fixture environment: no variables set, home directory /home/u, working
directory /cwd. -/
def env0 : Env := { vars := [], home := "/home/u", cwd := "/cwd" }

/-- Fixture document: a single plain entry and no meta version. -/
def docPlain : Doc := [(("section", "key"), "p")]

/-- Fixture document carrying meta version 1.2. -/
def docVer12 : Doc := [((metaStr, versionStr), "1.2"), (("section", "key"), "x")]

/-- Fixture document carrying meta version 2.0. -/
def docVer20 : Doc := [((metaStr, versionStr), "2.0"), (("section", "key"), "y")]

/-- Fixture filesystem for the parse-failure scenario: a valid file in /a,
a corrupt file in /b and a valid file in /c. -/
def fsParse : FileSystem :=
  [(("/a/app.ini"), { outcome := ParseOutcome.parsed docPlain, mode := 384 }),
   (("/b/app.ini"), { outcome := ParseOutcome.failed, mode := 384 }),
   (("/c/app.ini"), { outcome := ParseOutcome.parsed docPlain, mode := 384 })]

/-- Fixture filesystem: /a carries meta version 1.2, /b carries no version
(used for the lock-in-then-versionless scenario). -/
def fsLockPlain : FileSystem :=
  [(("/a/app.ini"), { outcome := ParseOutcome.parsed docVer12, mode := 384 }),
   (("/b/app.ini"), { outcome := ParseOutcome.parsed docPlain, mode := 384 })]

/-- Fixture filesystem for the subset-precedence scenario: each of /a, /b,
/c holds a file defining the same key with its own value exactly when the
matching flag is set. -/
def fsSubset (a b c : Bool) (va vb vc : String) : FileSystem :=
  (if a then
    [(("/a/app.ini"),
      FSFile.mk (ParseOutcome.parsed [(("section", "key"), va)]) 384)]
   else []) ++
  (if b then
    [(("/b/app.ini"),
      FSFile.mk (ParseOutcome.parsed [(("section", "key"), vb)]) 384)]
   else []) ++
  (if c then
    [(("/c/app.ini"),
      FSFile.mk (ParseOutcome.parsed [(("section", "key"), vc)]) 384)]
   else [])

/-- Fixture environment with both XDG variables set to structurally
non-empty values (a cons cell of characters), so that their Python
truthiness is decided by the shape of the value. -/
def envXdg (dc : Char) (dcs : List Char) (xc : Char) (xcs : List Char)
    (home cwd : String) : Env :=
  { vars := [(xdgConfigDirs, String.mk (dc :: dcs)),
             (xdgConfigHome, String.mk (xc :: xcs))],
    home := home, cwd := cwd }

/-- Fixture filesystem: /a carries meta version 1.2, /c carries meta
version 2.0 (used for the lock-in-then-major-mismatch scenario). -/
def fsLockMajor : FileSystem :=
  [(("/a/app.ini"), { outcome := ParseOutcome.parsed docVer12, mode := 384 }),
   (("/c/app.ini"), { outcome := ParseOutcome.parsed docVer20, mode := 384 })]

/-- Fixture filesystem for the secure-mode lock-in scenario: /a carries
meta version 1.2 but is group-readable (mode 644), /b is a secure (mode
600) file without a version. -/
def fsSecLock1 : FileSystem :=
  [(("/a/app.ini"), { outcome := ParseOutcome.parsed docVer12, mode := 420 }),
   (("/b/app.ini"), { outcome := ParseOutcome.parsed docPlain, mode := 384 })]

/-- Fixture filesystem for the secure-mode lock-in scenario: /a carries
meta version 1.2 but is group-readable (mode 644), /b is a secure (mode
600) file with the incompatible meta version 2.0. -/
def fsSecLock2 : FileSystem :=
  [(("/a/app.ini"), { outcome := ParseOutcome.parsed docVer12, mode := 420 }),
   (("/b/app.ini"), { outcome := ParseOutcome.parsed docVer20, mode := 384 })]

/-! ## Helper lemmas -/

/-- The base gate never changes an already-set instance version: whatever
branch Config.check_file takes with self.version set, the version it
returns is the one it was given. -/
theorem check_file_keeps_version (fs : FileSystem) (v : StrictVer)
    (fn : String) (r : CheckResult)
    (h : check_file fs (some v) fn = LoadOutcome.ok r) :
    r.version = some v := by
  unfold check_file at h
  repeat' split at h
  all_goals first
    | (cases h; simp_all)
    | simp_all

/-- The secured gate never changes an already-set instance version. -/
theorem secured_check_file_keeps_version (fs : FileSystem) (v : StrictVer)
    (fn : String) (r : CheckResult)
    (h : secured_check_file fs (some v) fn = LoadOutcome.ok r) :
    r.version = some v := by
  unfold secured_check_file at h
  split at h
  · exact LoadOutcome.noConfusion h
  · rename_i r0 heq
    have hv := check_file_keeps_version fs v fn r0 heq
    repeat' split at h
    all_goals first
      | (cases h; simp_all)
      | simp_all

/-- The dispatched gate never changes an already-set instance version. -/
theorem dispatch_check_file_keeps_version (secure : Bool) (fs : FileSystem)
    (v : StrictVer) (fn : String) (r : CheckResult)
    (h : dispatch_check_file secure fs (some v) fn = LoadOutcome.ok r) :
    r.version = some v := by
  unfold dispatch_check_file at h
  split at h
  · exact secured_check_file_keeps_version fs v fn r h
  · exact check_file_keeps_version fs v fn r h

/-- Once the load loop runs with a set version, the version can never
change again: the lock-in branch of the gate is unreachable, so the
none-to-some transition happens at most once per resolution. -/
theorem load_loop_keeps_version (secure : Bool) (fs : FileSystem) (env : Env)
    (g a fn cf : String) (v : StrictVer) :
    ∀ (ps : List String) (st st2 : LoadState), st.version = some v →
      load_loop secure fs env g a fn cf ps st = LoadOutcome.ok st2 →
      st2.version = some v := by
  intro ps
  induction ps with
  | nil =>
    intro st st2 hv h
    simp only [load_loop] at h
    cases h
    exact hv
  | cons d rest ih =>
    intro st st2 hv h
    simp only [load_loop] at h
    split at h
    · exact LoadOutcome.noConfusion h
    · rename_i r heq
      rw [hv] at heq
      have hrv : r.version = some v :=
        dispatch_check_file_keeps_version secure fs v _ r heq
      split at h
      · split at h
        · exact ih _ _ hrv h
        · split at h
          · exact LoadOutcome.noConfusion h
          · split at h
            · exact ih _ _ hrv h
            · exact ih _ _ hrv h
      · exact ih _ _ hrv h

/-- A completed load loop only appends to loaded files, and when it loaded
nothing the accumulated document is untouched. -/
theorem load_loop_extends (secure : Bool) (fs : FileSystem) (env : Env)
    (g a fn cf : String) :
    ∀ (ps : List String) (st st2 : LoadState),
      load_loop secure fs env g a fn cf ps st = LoadOutcome.ok st2 →
      ∃ extra : List String,
        st2.loadedFiles = st.loadedFiles ++ extra
        ∧ (extra = [] → st2.doc = st.doc) := by
  intro ps
  induction ps with
  | nil =>
    intro st st2 h
    simp only [load_loop] at h
    cases h
    exact ⟨[], by simp, fun _ => rfl⟩
  | cons d rest ih =>
    intro st st2 h
    simp only [load_loop] at h
    split at h
    · exact LoadOutcome.noConfusion h
    · rename_i r heq
      split at h
      · split at h
        · obtain ⟨extra, he, _⟩ := ih _ _ h
          refine ⟨osJoin d cf :: extra, ?_, ?_⟩
          · rw [he]
            simp
          · intro hx
            exact absurd hx (by simp)
        · split at h
          · exact LoadOutcome.noConfusion h
          · split at h
            · obtain ⟨extra, he, _⟩ := ih _ _ h
              refine ⟨osJoin d cf :: extra, ?_, ?_⟩
              · rw [he]
                simp
              · intro hx
                exact absurd hx (by simp)
            · obtain ⟨extra, he, _⟩ := ih _ _ h
              refine ⟨osJoin d cf :: extra, ?_, ?_⟩
              · rw [he]
                simp
              · intro hx
                exact absurd hx (by simp)
      · obtain ⟨extra, he, hd⟩ := ih _ _ h
        exact ⟨extra, he, hd⟩

/-! ## Claim theorems -/

/-- Claim C1, counterexample: for the candidate list [valid, corrupt,
valid2] the resolution does not skip the corrupt file and continue; the
parse error raised by ConfigParser.read inside check_file propagates and
the whole load aborts, so no success state (in particular none with both
valid files in loaded files) is ever produced. -/
theorem C1_counterexample :
    config_load false env0 fsParse ("acme") ("bird") (some ("/a:/b:/c"))
        ("app.ini") false none
      = LoadOutcome.raised (LoadExc.parsingError ("/b/app.ini"))
    ∧ ∀ st : LoadState,
        config_load false env0 fsParse ("acme") ("bird") (some ("/a:/b:/c"))
            ("app.ini") false none
          ≠ LoadOutcome.ok st := by
  have h1 : config_load false env0 fsParse ("acme") ("bird")
      (some ("/a:/b:/c")) ("app.ini") false none
      = LoadOutcome.raised (LoadExc.parsingError ("/b/app.ini")) := by decide
  refine ⟨h1, fun st h => ?_⟩
  rw [h1] at h
  exact LoadOutcome.noConfusion h

/-- Claim C1, amended: if a candidate config file exists but cannot be
parsed, the gate propagates the parse exception and the resolution aborts
at the corrupt file: for a candidate list [valid, corrupt, valid2] (any
versionless payloads and any permission bits), the load raises the parse
error of the corrupt file and the remaining candidates are never reached. -/
theorem C1_theorem (va vc : String) (m1 m2 m3 : Nat) :
    config_load false env0
      [(("/a/app.ini"),
        { outcome := ParseOutcome.parsed [(("section", "key"), va)], mode := m1 }),
       (("/b/app.ini"), { outcome := ParseOutcome.failed, mode := m2 }),
       (("/c/app.ini"),
        { outcome := ParseOutcome.parsed [(("section", "key"), vc)], mode := m3 })]
      ("acme") ("bird") (some ("/a:/b:/c")) ("app.ini") false none
      = LoadOutcome.raised (LoadExc.parsingError ("/b/app.ini")) := rfl

/-- Claim C2: for the search path [/a, /b, /c] where each present candidate
file defines the same key with its own value, the resolution succeeds, the
resolved document maps the key to the value of the last directory that
contains the file, and the loaded files are exactly the present candidates
in path order — for every non-empty subset of the three directories. -/
theorem C2_theorem (a b c : Bool) (va vb vc : String)
    (h : (a || b || c) = true) :
    ∃ st : LoadState,
      config_load false env0 (fsSubset a b c va vb vc) ("acme") ("bird")
          (some ("/a:/b:/c")) ("app.ini") false none = LoadOutcome.ok st
      ∧ Doc.get st.doc ("section") ("key")
          = some (if c then vc else if b then vb else va)
      ∧ st.loadedFiles =
          (if a then [("/a/app.ini")] else []) ++
          (if b then [("/b/app.ini")] else []) ++
          (if c then [("/c/app.ini")] else []) := by
  cases a <;> cases b <;> cases c
  · exact absurd h (by decide)
  all_goals exact ⟨_, rfl, rfl, rfl⟩

/-- Witness for claim C2 at the subset containing /a and /c: the resolved
value is the one from /c. -/
theorem C2_witness :
    ∃ st : LoadState,
      config_load false env0 (fsSubset true false true ("1") ("2") ("3"))
          ("acme") ("bird") (some ("/a:/b:/c")) ("app.ini") false none
        = LoadOutcome.ok st
      ∧ Doc.get st.doc ("section") ("key")
          = some (if true then ("3") else if false then ("2") else ("1"))
      ∧ st.loadedFiles =
          (if true then [("/a/app.ini")] else []) ++
          (if false then [("/b/app.ini")] else []) ++
          (if true then [("/c/app.ini")] else []) :=
  C2_theorem true false true ("1") ("2") ("3") rfl

/-- Claim C3, counterexample: with no explicit search path, no path
override variable and no XDG variables, the effective path has five
entries — it also contains the legacy home directory entry
/home/u/.acme/bird — and is therefore not the four-entry list the claim
enumerates. -/
theorem C3_counterexample :
    effective_path env0 ("acme") ("bird") none
      = [("/etc/acme/bird"), ("/etc/xdg/acme/bird"), ("/home/u/.acme/bird"),
         ("/home/u/.config/acme/bird"), ("/cwd/.acme/bird")]
    ∧ effective_path env0 ("acme") ("bird") none
      ≠ [("/etc/acme/bird"), ("/etc/xdg/acme/bird"),
         ("/home/u/.config/acme/bird"), ("/cwd/.acme/bird")] := by
  constructor
  · decide
  · decide

/-- Claim C3, amended: with no explicit search path and no path override
variable, the effective path consists exactly, lowest precedence first, of
the system-wide /etc/acme/bird entry, the XDG_CONFIG_DIRS entries joined
with group and app in reversed order (or /etc/xdg/acme/bird when
XDG_CONFIG_DIRS is unset), the legacy home entry home/.acme/bird, the XDG
home entry (XDG_CONFIG_HOME joined with group and app, or
home/.config/acme/bird when unset), and the cwd/.acme/bird entry — and of
no other entries.  The first conjunct covers both XDG variables set to any
non-empty value, the second covers both unset. -/
theorem C3_theorem (dc : Char) (dcs : List Char) (xc : Char) (xcs : List Char)
    (home cwd : String) :
    effective_path (envXdg dc dcs xc xcs home cwd) ("acme") ("bird") none
      = [("/etc/acme/bird")] ++
        ((strSplit (String.mk (dc :: dcs)) pathsep).reverse).map
          (fun p => osJoin (osJoin p ("acme")) ("bird")) ++
        [home ++ ("/.acme/bird"),
         expanduser (envXdg dc dcs xc xcs home cwd)
           (osJoin (osJoin (String.mk (xc :: xcs)) ("acme")) ("bird")),
         osJoin (osJoin cwd (".acme")) ("bird")]
    ∧ effective_path { vars := [], home := home, cwd := cwd }
        ("acme") ("bird") none
      = [("/etc/acme/bird"), ("/etc/xdg/acme/bird"),
         home ++ ("/.acme/bird"), home ++ ("/.config/acme/bird"),
         osJoin (osJoin cwd (".acme")) ("bird")] :=
  ⟨rfl, rfl⟩

/-- Claim C4, counterexample: with no requested version and the candidate
list [fileA with meta version 1.2, fileB without version], the resolution
does not load both files with no error: after fileA locks in version 1.2,
check_file raises NoVersionError at fileB and no success state exists. -/
theorem C4_counterexample :
    config_load false env0 fsLockPlain
      ("acme") ("bird") (some ("/a:/b")) ("app.ini") false none
      = LoadOutcome.raised
          (LoadExc.noVersionError ("/b/app.ini") (StrictVer.mk 1 2 0))
    ∧ ∀ st : LoadState,
        config_load false env0 fsLockPlain
          ("acme") ("bird") (some ("/a:/b")) ("app.ini") false none
          ≠ LoadOutcome.ok st := by
  have h1 : config_load false env0 fsLockPlain
      ("acme") ("bird") (some ("/a:/b")) ("app.ini") false none
      = LoadOutcome.raised
          (LoadExc.noVersionError ("/b/app.ini") (StrictVer.mk 1 2 0)) := by
    decide
  refine ⟨h1, fun st h => ?_⟩
  rw [h1] at h
  exact LoadOutcome.noConfusion h

/-- Claim C4, amended: with no requested version and the candidate list
[fileA carrying meta version 1.2, fileB carrying no version], fileA locks
in version 1.2 and the resolution then raises NoVersionError at fileB (for
any payload values and permission bits), aborting the load instead of
loading both files. -/
theorem C4_theorem (x p : String) (m1 m2 : Nat) :
    config_load false env0
      [(("/a/app.ini"),
        { outcome := ParseOutcome.parsed
            [((metaStr, versionStr), "1.2"), (("section", "key"), x)],
          mode := m1 }),
       (("/b/app.ini"),
        { outcome := ParseOutcome.parsed [(("section", "key"), p)], mode := m2 })]
      ("acme") ("bird") (some ("/a:/b")) ("app.ini") false none
      = LoadOutcome.raised
          (LoadExc.noVersionError ("/b/app.ini") (StrictVer.mk 1 2 0)) := rfl

/-- Claim C5, counterexample: with requested version 2.1 and a same-major
candidate file of version 2.0 (minor less than expected), the file is not
skipped: the resolution succeeds with the file in loaded files, emitting
the mismatching-minor warning. -/
theorem C5_counterexample :
    ∃ st : LoadState,
      config_load false env0
        [(("/a/app.ini"), { outcome := ParseOutcome.parsed docVer20, mode := 384 })]
        ("acme") ("bird") (some ("/a")) ("app.ini") false
        (some (StrictVer.mk 2 1 0))
        = LoadOutcome.ok st
      ∧ st.loadedFiles = [("/a/app.ini")]
      ∧ (LogLevel.warning,
          LogMsg.mismatchingMinor ("/a/app.ini") (StrictVer.mk 2 1 0) ("2.0"))
          ∈ st.logs :=
  ⟨_, rfl, rfl, by decide⟩

/-- Claim C5, amended: when a version is in effect and a candidate file has
the same major component, a differing minor component — smaller (2.0
against expected 2.1) or greater (2.5 against expected 2.1) — does not
exclude the file: it is accepted, appears in loaded files and a
warning-level mismatching-minor log is emitted. -/
theorem C5_theorem (y z : String) (m1 m2 : Nat) :
    (∃ st : LoadState,
      config_load false env0
        [(("/a/app.ini"),
          { outcome := ParseOutcome.parsed
              [((metaStr, versionStr), "2.0"), (("section", "key"), y)],
            mode := m1 })]
        ("acme") ("bird") (some ("/a")) ("app.ini") false
        (some (StrictVer.mk 2 1 0))
        = LoadOutcome.ok st
      ∧ st.loadedFiles = [("/a/app.ini")]
      ∧ (LogLevel.warning,
          LogMsg.mismatchingMinor ("/a/app.ini") (StrictVer.mk 2 1 0) ("2.0"))
          ∈ st.logs)
    ∧ (∃ st : LoadState,
      config_load false env0
        [(("/a/app.ini"),
          { outcome := ParseOutcome.parsed
              [((metaStr, versionStr), "2.5"), (("section", "key"), z)],
            mode := m2 })]
        ("acme") ("bird") (some ("/a")) ("app.ini") false
        (some (StrictVer.mk 2 1 0))
        = LoadOutcome.ok st
      ∧ st.loadedFiles = [("/a/app.ini")]
      ∧ (LogLevel.warning,
          LogMsg.mismatchingMinor ("/a/app.ini") (StrictVer.mk 2 1 0) ("2.5"))
          ∈ st.logs) := by
  constructor
  · exact ⟨_, rfl, rfl, List.mem_cons_self _ _⟩
  · exact ⟨_, rfl, rfl, List.mem_cons_self _ _⟩

/-- Claim C6: for every current search path (default from any environment
and home/cwd, or explicit), setting the path override variable
ACME_BIRD_PATH to a non-empty value that begins with a plus appends the
path-separator-split remainder to the current path, preserving its order,
while a value that does not begin with a plus replaces the current path by
exactly its path-separator-split value. -/
theorem C6_theorem (e : String) (vars : List (String × String))
    (home cwd : String) (sp : Option String)
    (hnone : List.lookup (env_path_name ("acme") ("bird")) vars = none)
    (he : (e == emptyStr) = false) :
    (strStarts e plusSign = true →
      effective_path
          { vars := (env_path_name ("acme") ("bird"), e) :: vars,
            home := home, cwd := cwd } ("acme") ("bird") sp
        = effective_path { vars := vars, home := home, cwd := cwd }
            ("acme") ("bird") sp
          ++ strSplit (strDropOne e) pathsep)
    ∧ (strStarts e plusSign = false →
      effective_path
          { vars := (env_path_name ("acme") ("bird"), e) :: vars,
            home := home, cwd := cwd } ("acme") ("bird") sp
        = strSplit e pathsep) := by
  have hne1 : (xdgConfigDirs == env_path_name ("acme") ("bird")) = false := by
    decide
  have hne2 : (xdgConfigHome == env_path_name ("acme") ("bird")) = false := by
    decide
  constructor <;> intro hp <;>
    simp [effective_path, get_xdg_dirs, get_xdg_home, envGet, List.lookup,
      hne1, hne2, hnone, he, hp, expanduser]

/-- Witness for claim C6: with the override set to a plus-prefixed value,
the effective path is the unmodified default path followed by the split
remainder. -/
theorem C6_witness :
    effective_path
        { vars := [(("ACME_BIRD_PATH"), ("+/x:/y"))], home := "/h", cwd := "/c" }
        ("acme") ("bird") none
      = effective_path { vars := [], home := "/h", cwd := "/c" }
          ("acme") ("bird") none ++ [("/x"), ("/y")] :=
  (C6_theorem ("+/x:/y") [] ("/h") ("/c") none rfl rfl).1 rfl

/-- Claim C7: when the candidate loop completes without raising, the
resolution raises the not-found error — carrying the attempted filename
and the full search path — exactly when no candidate file was loaded and
require_load is true; and when no candidate was loaded with require_load
false it returns successfully with the empty default document, empty
loaded files and a warning log recording the filename and path. -/
theorem C7_theorem (secure : Bool) (env : Env) (fs : FileSystem)
    (g a : String) (sp : Option String) (fn : String) (req : Bool)
    (v0 : Option StrictVer) (st : LoadState)
    (hrun : load_loop secure fs env g a fn (effective_filename env g a fn)
        (effective_path env g a sp)
        (initial_state env g a sp fn v0) = LoadOutcome.ok st) :
    (config_load secure env fs g a sp fn req v0
        = LoadOutcome.raised (LoadExc.configNotFound
            (effective_filename env g a fn) (effective_path env g a sp))
      ↔ (st.loadedFiles = [] ∧ req = true))
    ∧ (st.loadedFiles = [] → req = false →
        config_load secure env fs g a sp fn req v0
          = LoadOutcome.ok (LoadState.mk st.doc st.loadedFiles st.activePath
              st.version
              (st.logs ++ [(LogLevel.warning, LogMsg.noConfigFound
                (effective_filename env g a fn)
                (effective_path env g a sp))]))
          ∧ st.doc = []) := by
  have hcl : config_load secure env fs g a sp fn req v0 =
      (if st.loadedFiles == ([] : List String) then
        if req then
          LoadOutcome.raised (LoadExc.configNotFound
            (effective_filename env g a fn) (effective_path env g a sp))
        else
          LoadOutcome.ok (LoadState.mk st.doc st.loadedFiles st.activePath
            st.version
            (st.logs ++ [(LogLevel.warning, LogMsg.noConfigFound
              (effective_filename env g a fn) (effective_path env g a sp))]))
      else LoadOutcome.ok st) := by
    simp only [config_load]
    rw [hrun]
  constructor
  · constructor
    · intro hres
      rw [hcl] at hres
      by_cases hl : st.loadedFiles = []
      · rw [if_pos (by simp [hl])] at hres
        cases req
        · exact absurd hres (by simp)
        · exact ⟨hl, rfl⟩
      · rw [if_neg (by simp [hl])] at hres
        exact absurd hres (by simp)
    · rintro ⟨hl, hreq⟩
      subst hreq
      rw [hcl, if_pos (by simp [hl])]
      simp
  · intro hl hreq
    subst hreq
    obtain ⟨extra, he, hd⟩ :=
      load_loop_extends secure fs env g a fn (effective_filename env g a fn)
        (effective_path env g a sp) _ _ hrun
    have hextra : extra = [] := by
      simpa [initial_state, hl] using he.symm
    refine ⟨?_, ?_⟩
    · rw [hcl, if_pos (by simp [hl])]
      simp
    · rw [hd hextra]
      simp [initial_state]

/-- Witness for claim C7: an empty filesystem with require_load set raises
the not-found error carrying the filename and the search path. -/
theorem C7_witness :
    config_load false env0 [] ("acme") ("bird") (some ("/a")) ("app.ini")
        true none
      = LoadOutcome.raised (LoadExc.configNotFound ("app.ini") [("/a")]) :=
  (C7_theorem false env0 [] ("acme") ("bird") (some ("/a")) ("app.ini") true
    none (initial_state env0 ("acme") ("bird") (some ("/a")) ("app.ini") none)
    rfl).1.mpr ⟨rfl, rfl⟩

/-- Claim C8: the lock-in transition happens at most once per resolution —
once the loop state carries a version, every later gate call returns that
same version, so it can never be replaced (first conjunct, for every
filesystem, path suffix and state); and concretely, resolving with no
requested version over [fileA with version 1.2, fileC with version 2.0]
locks in 1.2 at fileA, loads fileA, and skips fileC with an error-level
invalid-major log while fileA remains in loaded files (second conjunct). -/
theorem C8_theorem (secure : Bool) (fs : FileSystem) (env : Env)
    (g a fn cf : String) (ps : List String) (st st2 : LoadState)
    (v : StrictVer) (hv : st.version = some v)
    (hrun : load_loop secure fs env g a fn cf ps st = LoadOutcome.ok st2) :
    st2.version = some v
    ∧ config_load false env0 fsLockMajor ("acme") ("bird") (some ("/a:/c"))
        ("app.ini") false none
      = LoadOutcome.ok
          (LoadState.mk docVer12 [("/a/app.ini")]
            [("/a/app.ini"), ("/c/app.ini")] (some (StrictVer.mk 1 2 0))
            [(LogLevel.info, LogMsg.lockIn ("/a/app.ini") (StrictVer.mk 1 2 0)),
             (LogLevel.info, LogMsg.loadingConfig ("/a/app.ini")),
             (LogLevel.error,
              LogMsg.invalidMajor ("/c/app.ini") (StrictVer.mk 1 2 0) ("2.0"))]) :=
  ⟨load_loop_keeps_version secure fs env g a fn cf v ps st st2 hv hrun,
   by decide⟩

/-- Witness for claim C8 at the empty path suffix and a state already
carrying version 1.2. -/
theorem C8_witness :
    (LoadState.mk [] [] [] (some (StrictVer.mk 1 2 0)) []).version
      = some (StrictVer.mk 1 2 0)
    ∧ config_load false env0 fsLockMajor ("acme") ("bird") (some ("/a:/c"))
        ("app.ini") false none
      = LoadOutcome.ok
          (LoadState.mk docVer12 [("/a/app.ini")]
            [("/a/app.ini"), ("/c/app.ini")] (some (StrictVer.mk 1 2 0))
            [(LogLevel.info, LogMsg.lockIn ("/a/app.ini") (StrictVer.mk 1 2 0)),
             (LogLevel.info, LogMsg.loadingConfig ("/a/app.ini")),
             (LogLevel.error,
              LogMsg.invalidMajor ("/c/app.ini") (StrictVer.mk 1 2 0) ("2.0"))]) :=
  C8_theorem false [] env0 emptyStr emptyStr emptyStr emptyStr []
    (LoadState.mk [] [] [] (some (StrictVer.mk 1 2 0)) [])
    (LoadState.mk [] [] [] (some (StrictVer.mk 1 2 0)) [])
    (StrictVer.mk 1 2 0) rfl rfl

/-- Claim C9: the secured gate rejects any readable versionless file whose
mode has the group-read or other-read bit set, with the not-secure warning
(first conjunct, for every such mode); and end to end, a file whose mode
is owner-rw plus any combination of those two bits (at least one set) is
excluded from loaded files under secure lookup but included — with its
contents — under the default insecure lookup (second and third conjuncts,
via get_config, which selects the secured gate exactly on the secure
option). -/
theorem C9_theorem (mg mo : Bool) (hbits : (mg || mo) = true) :
    (∀ mode : Nat, insecure_mode mode = true →
      secured_check_file
        [(("/a/config.ini"), { outcome := ParseOutcome.parsed docPlain, mode := mode })]
        none ("/a/config.ini")
        = LoadOutcome.ok (CheckResult.mk false none
            [(LogLevel.warning, LogMsg.notSecure ("/a/config.ini"))]))
    ∧ get_config env0
        [(("/a/config.ini"),
          { outcome := ParseOutcome.parsed docPlain,
            mode := 384 + (if mg then 32 else 0) + (if mo then 4 else 0) })]
        ("bird") ("acme") emptyStr
        { search_path := some ("/a"), filename := none, version := none,
          require_load := false, secure := true }
      = LoadOutcome.ok
          { config := [], active_path := [("/a/config.ini")], loaded_files := [],
            config_id := { group := "acme", app := "bird" },
            locked_version := none,
            logs := [(LogLevel.warning, LogMsg.notSecure ("/a/config.ini")),
                     (LogLevel.warning,
                      LogMsg.noConfigFound ("config.ini") [("/a")])] }
    ∧ get_config env0
        [(("/a/config.ini"),
          { outcome := ParseOutcome.parsed docPlain,
            mode := 384 + (if mg then 32 else 0) + (if mo then 4 else 0) })]
        ("bird") ("acme") emptyStr
        { search_path := some ("/a"), filename := none, version := none,
          require_load := false, secure := false }
      = LoadOutcome.ok
          { config := docPlain, active_path := [("/a/config.ini")],
            loaded_files := [("/a/config.ini")],
            config_id := { group := "acme", app := "bird" },
            locked_version := none,
            logs := [(LogLevel.info, LogMsg.loadingConfig ("/a/config.ini"))] } := by
  refine ⟨?_, ?_, ?_⟩
  · intro mode hm
    have hshape : secured_check_file
        [(("/a/config.ini"), { outcome := ParseOutcome.parsed docPlain, mode := mode })]
        none ("/a/config.ini")
        = if insecure_mode mode = true then
            LoadOutcome.ok (CheckResult.mk false none
              [(LogLevel.warning, LogMsg.notSecure ("/a/config.ini"))])
          else
            LoadOutcome.ok (CheckResult.mk true none []) := rfl
    rw [hshape, if_pos hm]
  · cases mg <;> cases mo
    · exact absurd hbits (by decide)
    all_goals rfl
  · cases mg <;> cases mo <;> rfl

/-- Witness for claim C9 at mode 644 (owner-rw, group-read, other-read):
the secure lookup excludes the file. -/
theorem C9_witness :
    get_config env0
        [(("/a/config.ini"),
          { outcome := ParseOutcome.parsed docPlain, mode := 420 })]
        ("bird") ("acme") emptyStr
        { search_path := some ("/a"), filename := none, version := none,
          require_load := false, secure := true }
      = LoadOutcome.ok
          { config := [], active_path := [("/a/config.ini")], loaded_files := [],
            config_id := { group := "acme", app := "bird" },
            locked_version := none,
            logs := [(LogLevel.warning, LogMsg.notSecure ("/a/config.ini")),
                     (LogLevel.warning,
                      LogMsg.noConfigFound ("config.ini") [("/a")])] } :=
  (C9_theorem true true rfl).2.1

/-- Claim C10: under secure lookup with no version locked in yet, a
candidate that carries version 1.2 but is rejected for insecure
permissions still locks in its version: with a later versionless file the
resolution raises NoVersionError at that file, and with a later file of
major version 2.0 the resolution succeeds with an empty loaded-files list,
the lock-in log for the rejected file, its not-secure warning and the
invalid-major error for the later file. -/
theorem C10_theorem :
    config_load true env0 fsSecLock1 ("acme") ("bird") (some ("/a:/b"))
        ("app.ini") false none
      = LoadOutcome.raised
          (LoadExc.noVersionError ("/b/app.ini") (StrictVer.mk 1 2 0))
    ∧ config_load true env0 fsSecLock2 ("acme") ("bird") (some ("/a:/b"))
        ("app.ini") false none
      = LoadOutcome.ok
          (LoadState.mk [] [] [("/a/app.ini"), ("/b/app.ini")]
            (some (StrictVer.mk 1 2 0))
            [(LogLevel.info, LogMsg.lockIn ("/a/app.ini") (StrictVer.mk 1 2 0)),
             (LogLevel.warning, LogMsg.notSecure ("/a/app.ini")),
             (LogLevel.error,
              LogMsg.invalidMajor ("/b/app.ini") (StrictVer.mk 1 2 0) ("2.0")),
             (LogLevel.warning,
              LogMsg.noConfigFound ("app.ini") [("/a"), ("/b")])]) := by
  constructor
  · decide
  · decide
